import Mathlib

/-!
Verification of the sigma-db/napi command-line tool against its specification.

The canonical implementation is src/bin/main.js (the webpack entry point);
src/unnamed/part_000 .. part_003 are sibling revisions of the same tool.
The definitions below are shallow embeddings of the functions of
src/bin/main.js: promises become explicit result values, filesystem state
becomes an explicit record of path states, exit codes of spawned subprocesses
become inputs, and the unbounded while loops of the template renderer become
fuel-indexed recursions.
-/

/-- State of a filesystem path as seen by lstat: absent, a regular file, a
directory, or present but neither a regular file nor a directory (for example
a symbolic link or a socket). -/
inductive PathState
  | missing
  | file
  | dir
  | other
  deriving DecidableEq

/-- Outcome of one call to remove(path, ignoreErrors) of src/bin/main.js
lines 58-67: the promise resolves leaving the path in the given state, or the
invalid-path Error is thrown, or the rejection handler produced by
clear(null, false) terminates the process with exit status 1. -/
inductive RemoveOutcome
  | resolved (newState : PathState)
  | threwInvalidPath
  | exitedProcess
  deriving DecidableEq

/-- remove(path, ignoreErrors) of src/bin/main.js lines 58-67.
lstat rejects on a missing path and that rejection is caught by
clear(null, ignoreErrors); for ignoreErrors = false that handler logs the
error and calls process.exit(1), while for ignoreErrors = true it returns,
stats is then undefined, and the function resolves without touching the path.
When lstat succeeds, a regular file is deleted with unlink, a directory with
recursive rmdir, and a path that is neither throws the Error reading
Provided path neither references a file nor a directory when errors are not
ignored, resolving untouched otherwise. -/
def remove (st : PathState) (ignoreErrors : Bool) : RemoveOutcome :=
  match st with
  | .missing => if ignoreErrors then .resolved .missing else .exitedProcess
  | .file => .resolved .missing
  | .dir => .resolved .missing
  | .other => if ignoreErrors then .resolved .other else .threwInvalidPath

/-- The state a path is left in by remove(path, ignoreErrors): changed only
when the promise resolves after unlink or recursive rmdir. -/
def removeNewState (st : PathState) (ignoreErrors : Bool) : PathState :=
  match remove st ignoreErrors with
  | .resolved s => s
  | _ => st

/-- Result of the promise returned by verify(cmd, optional): it either
resolves with a Boolean value or rejects with a message naming cmd. -/
inductive VerifyResult
  | resolved (value : Bool)
  | rejectedNaming (cmd : String)
  deriving DecidableEq

/-- verify(cmd, optional) of src/bin/main.js lines 54-56, as a function of the
exit code of the spawned locator subprocess (which on POSIX, where.exe on
Windows). On the exit event the source runs
optional ? resolve(!(code === 0 && optional)) : reject(message naming cmd),
so the rejection branch does not inspect the exit code at all. -/
def verify (cmd : String) (exitCode : Nat) (optional : Bool) : VerifyResult :=
  if optional then .resolved (! (decide (exitCode = 0) && optional))
  else .rejectedNaming cmd

/-- verify of src/unnamed/part_001 lines 54-56, a sibling revision of the same
tool: resolves true on exit code 0, resolves false when marked optional, and
otherwise rejects naming the missing command. -/
def verifyRev1 (cmd : String) (exitCode : Nat) (optional : Bool) : VerifyResult :=
  if exitCode = 0 then .resolved true
  else if optional then .resolved false
  else .rejectedNaming cmd

/-- A line is blank when it is the empty string; this is the JavaScript
falsiness test the renderer loops use on array elements. -/
def blank (s : String) : Bool := s = ""

/-- The JavaScript split of a string at newline characters: it always yields
at least one (possibly empty) piece, and the empty string splits to the
single-element array holding the empty string. -/
def splitLines (s : String) : List String :=
  (s.toList.splitOn '\n').map (fun cs => String.mk cs)

/-- Number of leading space characters of a line, as computed by the loop
while (lines[0].charAt(depth) === " ") depth++ of src/bin/main.js line 143. -/
def countLeadingSpaces (s : String) : Nat :=
  (s.toList.takeWhile (fun c => c = ' ')).length

/-- The loop while (!lines[0]) lines.shift() of src/bin/main.js line 141,
indexed by fuel. On the empty array, lines[0] is undefined and hence falsy
while shift leaves the array empty, so the loop never exits; the fuel 0 case
returns none to record that the given number of iterations did not
complete. -/
def shiftBlank : Nat → List String → Option (List String)
  | 0, _ => none
  | n + 1, [] => shiftBlank n []
  | n + 1, l :: ls => if l = "" then shiftBlank n ls else some (l :: ls)

/-- The loop while (!lines[lines.length - 1]) lines.pop() of src/bin/main.js
line 142, indexed by fuel: pop removes the last element while it is the empty
string, and on the empty array the loop would spin like the shift loop. -/
def popBlank : Nat → List String → Option (List String)
  | 0, _ => none
  | n + 1, l =>
    match l.getLast? with
    | none => popBlank n l
    | some last => if last = "" then popBlank n l.dropLast else some l

/-- The tagged-template renderer src of src/bin/main.js lines 137-148,
applied to the already interpolated template text (the reduce on line 138
concatenates the literal pieces with the substituted values). The text is
split at newline characters; when the resulting array is nonempty (which
split always guarantees, making the else branch returning the empty string
unreachable) the leading and trailing blank-stripping loops run, the
leading-space depth of the first remaining line is counted, every line loses
its first depth characters via substring, and the lines are joined with the
platform line ending eol. Returns none when the stripping loops do not
terminate within the given fuel. -/
def srcRender (eol : String) (fuel : Nat) (template : String) : Option String :=
  let lines := splitLines template
  if lines.length ≠ 0 then
    match shiftBlank fuel lines with
    | none => none
    | some l1 =>
      match popBlank fuel l1 with
      | none => none
      | some l2 =>
        let depth := countLeadingSpaces (l2.headD "")
        some (String.intercalate eol (l2.map (fun s => s.drop depth)))
  else
    some ""

/-- Removal of all trailing blank lines of a list of lines. -/
def dropTrailingBlank (l : List String) : List String :=
  (l.reverse.dropWhile blank).reverse

/-- Modelled from the words of the specification of the template renderer
(spec section 4.2), for comparison with the source: strip any leading blank
lines and a single trailing blank line, count the leading spaces of the first
retained line, remove exactly that many leading spaces from every line, and
join with the platform line ending. -/
def specC6Render (eol : String) (template : String) : String :=
  let ls := (splitLines template).dropWhile blank
  let kept := if ls.getLast? = some "" then ls.dropLast else ls
  let depth := countLeadingSpaces (kept.headD "")
  String.intercalate eol (kept.map (fun s => s.drop (min depth (countLeadingSpaces s))))

/-- The renderer contract as amended to match the source: strip all leading
blank lines and all trailing blank lines, count the leading spaces of the
first retained line, remove that many leading characters from every retained
line, and join with the platform line ending. -/
def amendedRender (eol : String) (template : String) : String :=
  let kept := dropTrailingBlank ((splitLines template).dropWhile blank)
  let depth := countLeadingSpaces (kept.headD "")
  String.intercalate eol (kept.map (fun s => s.drop depth))

/-- The filesystem paths of a project directory that the tool reads or
writes, each with its current state. -/
structure Fs where
  buildDir : PathState
  headerDir : PathState
  libDir : PathState
  libFile : PathState
  srcDir : PathState
  srcFile : PathState
  cmakeListsFile : PathState
  napiCmakeFile : PathState
  packageJsonFile : PathState
  gitignoreFile : PathState
  gitDir : PathState
  deriving DecidableEq

/-- clean(all) of src/bin/main.js lines 260-263: remove(BUILD_DIR, true) and,
when all is set, remove(NODE_HEADER_DIR, true). Returns none if either
removal threw or terminated the process, which the ignore flag rules out. -/
def clean (all : Bool) (fs : Fs) : Option Fs :=
  match remove fs.buildDir true with
  | .resolved b =>
    let fs1 := { fs with buildDir := b }
    if all then
      match remove fs1.headerDir true with
      | .resolved hd => some { fs1 with headerDir := hd }
      | _ => none
    else
      some fs1
  | _ => none

/-- Inputs determining one run of the init command: the platform, whether
each download, directory creation and file write succeeds, and the state the
respective target is left in when a download fails midway. -/
structure InitEnv where
  isWindows : Bool
  headersDownloadOk : Bool
  mkdirLibOk : Bool
  libDownloadOk : Bool
  writeNapiCmakeOk : Bool
  leftoverHeader : PathState
  leftoverLibFile : PathState
  deriving DecidableEq

/-- Filesystem state and exit behaviour after the init command finished. -/
structure InitOutcome where
  fs : Fs
  exited1 : Bool
  deriving DecidableEq

/-- The rollback handler installed by main (src/bin/main.js line 275):
clear([NODE_HEADER_DIR, NODE_LIB_DIR, BUILD_DIR, NAPI_CMAKE_FILE], true)
removes the four paths best effort via remove(p, true) on line 74; removing
the library directory recursively also deletes the library file inside it.
Because the handler is created with its ignore flag set, it neither logs the
triggering error nor calls process.exit. -/
def clearInitPaths (fs : Fs) : Fs :=
  { fs with
    headerDir := removeNewState fs.headerDir true,
    libDir := removeNewState fs.libDir true,
    libFile := if fs.libDir = .dir then .missing else fs.libFile,
    buildDir := removeNewState fs.buildDir true,
    napiCmakeFile := removeNewState fs.napiCmakeFile true }

/-- init() of src/bin/main.js lines 232-239 combined with the catch handler
of line 275: download and extract the headers archive into the header
directory, then on Windows create the library directory and download
the import library into it, then write the napi.cmake file. A failing step leaves
the target in the leftover state given by the environment and triggers the
rollback handler clearInitPaths; since that handler is created with
ignore = true, no failure makes the process exit with status 1. -/
def initCmd (env : InitEnv) (fs : Fs) : InitOutcome :=
  if env.headersDownloadOk = false then
    { fs := clearInitPaths { fs with headerDir := env.leftoverHeader }, exited1 := false }
  else
    let fs1 := { fs with headerDir := .dir }
    if env.isWindows = true ∧ env.mkdirLibOk = false then
      { fs := clearInitPaths fs1, exited1 := false }
    else
      let fs2 := if env.isWindows then { fs1 with libDir := .dir } else fs1
      if env.isWindows = true ∧ env.libDownloadOk = false then
        { fs := clearInitPaths { fs2 with libFile := env.leftoverLibFile }, exited1 := false }
      else
        let fs3 := if env.isWindows then { fs2 with libFile := .file } else fs2
        if env.writeNapiCmakeOk = false then
          { fs := clearInitPaths fs3, exited1 := false }
        else
          { fs := { fs3 with napiCmakeFile := .file }, exited1 := false }

/-- Result of the rollback handler exit(name) of src/bin/main.js lines 84-95:
the state the project directory is left in, and the exit status. -/
structure ExitOutcome where
  projectDir : PathState
  exitCode : Nat
  deriving DecidableEq

/-- The body of the try block of exit(name), const stats = lstat(path).
The identifier path is not bound anywhere in src/bin/main.js (line 19
destructures only join and relative from the path module), so under strict
mode evaluating it throws a ReferenceError before lstat is even called. -/
def exitTryBody : Except String Unit := .error "ReferenceError: path is not defined"

/-- exit(name) of src/bin/main.js lines 84-95: process.chdir(ROOT) with ROOT
being the relative path dot leaves the working directory unchanged; the try
block throws (see exitTryBody) and the empty catch swallows the exception, so
the rmdir(prjDir) on line 90 is never reached; the handler then logs the
error and calls process.exit(1). Were the try body to succeed with a
directory stat, the rmdir branch would delete the project directory. -/
def exitHandler (projectDir : PathState) : ExitOutcome :=
  match exitTryBody with
  | .error _ => { projectDir := projectDir, exitCode := 1 }
  | .ok _ => { projectDir := .missing, exitCode := 1 }

/-- The value of the condition initGit() on src/bin/main.js line 229: create
does not await initGit before testing it, so the condition is the Promise
object itself, and an object is truthy in JavaScript regardless of the
availability Boolean the promise later resolves with. The two arguments
record what the resolved value would have depended on: whether git is on the
search path and the exit code of git init. -/
def initGitConditionTruthy (gitAvailable : Bool) (gitInitExitCode : Nat) : Bool := true

/-- What the final step of create touches: whether the ignore file was
written and the state of the version-control metadata directory. -/
structure GitStepOutcome where
  gitignoreWritten : Bool
  gitDir : PathState
  deriving DecidableEq

/-- The final step of create, src/bin/main.js line 229:
await (initGit() ? writeFile(GITIGNORE_FILE, GITIGNORE()) : remove(GIT_DIR, true)). -/
def gitStep (gitAvailable : Bool) (gitInitExitCode : Nat) (gitDir : PathState) : GitStepOutcome :=
  if initGitConditionTruthy gitAvailable gitInitExitCode then
    { gitignoreWritten := true, gitDir := gitDir }
  else
    { gitignoreWritten := false, gitDir := removeNewState gitDir true }

/-- Inputs determining one run of the build command of src/bin/main.js
lines 241-258: the platform, the exit codes the locator subprocess reports
for cmake and ninja, whether the downloaded include directory and the import
library file exist, and the exit codes of the spawned configure and compile
steps. -/
structure BuildEnv where
  isWindows : Bool
  whichCmakeExit : Nat
  whichNinjaExit : Nat
  includeDirPresent : Bool
  libFilePresent : Bool
  cmakeRunExit : Nat
  ninjaRunExit : Nat
  deriving DecidableEq

/-- Observable outcome of the build command: which side effects happened and
whether the returned promise rejected. -/
structure BuildOutcome where
  buildDirCreated : Bool
  cmakeSpawned : Bool
  ninjaSpawned : Bool
  rejected : Bool
  deriving DecidableEq

/-- build(debug, generator) of src/bin/main.js lines 241-258: first awaits
Promise.all of verify(cmake), verify(ninja) and access(NODE_INCLUDE_DIR),
then on Windows awaits access(NODE_LIB_FILE); only afterwards creates the
build directory and spawns the configure and compile subprocesses, where
spawnAsync rejects exactly on a positive exit code. A rejection of any
earlier await propagates before any later statement runs. -/
def build (env : BuildEnv) : BuildOutcome :=
  let cmakeOk := match verify "cmake" env.whichCmakeExit false with
    | .resolved _ => true
    | .rejectedNaming _ => false
  let ninjaOk := match verify "ninja" env.whichNinjaExit false with
    | .resolved _ => true
    | .rejectedNaming _ => false
  if ¬(cmakeOk = true ∧ ninjaOk = true ∧ env.includeDirPresent = true) then
    ⟨false, false, false, true⟩
  else if env.isWindows = true ∧ env.libFilePresent = false then
    ⟨false, false, false, true⟩
  else if env.cmakeRunExit > 0 then
    ⟨true, true, false, true⟩
  else
    ⟨true, true, true, decide (env.ninjaRunExit > 0)⟩

/-- NODE_ARCH of src/bin/main.js line 18:
process.arch === "x64" ? "win-x64" : "win-x86". -/
def NODE_ARCH (arch : String) : String :=
  if arch = "x64" then "win-x64" else "win-x86"

/-- The relative download path of the import library used by init,
src/bin/main.js line 236: the architecture token followed by node.lib. -/
def libDownloadPath (arch : String) : String :=
  NODE_ARCH arch ++ "/node.lib"

/-- With the ignore flag the removal promise always resolves, leaving the
path in the state removeNewState computes. -/
theorem remove_ignore_resolves (st : PathState) :
    remove st true = .resolved (removeNewState st true) := by
  cases st <;> rfl

/-- The sibling revision of the tool locator meets the contract the claim
states, exhibiting the intent that src/bin/main.js misses. -/
theorem verifyRev1_meets_contract (cmd : String) (exitCode : Nat) :
    (exitCode = 0 → verifyRev1 cmd exitCode false = .resolved true) ∧
    (exitCode ≠ 0 → verifyRev1 cmd exitCode false = .rejectedNaming cmd) ∧
    verifyRev1 cmd exitCode true = .resolved (decide (exitCode = 0)) := by
  refine ⟨fun h => by simp [verifyRev1, h], fun h => by simp [verifyRev1, h], ?_⟩
  by_cases h : exitCode = 0 <;> simp [verifyRev1, h]

/-- A witness for the hypotheses of verifyRev1_meets_contract at exit code
0. -/
theorem verifyRev1_meets_contract_checked :
    verifyRev1 "cmake" 0 false = .resolved true :=
  (verifyRev1_meets_contract "cmake" 0).1 rfl

/-- C1: in src/bin/main.js the tool locator contradicts the claimed contract
at concrete inputs. Without the optional flag it rejects with the message
naming the tool even when the locator subprocess exits with code 0, and with
the optional flag it resolves false when the tool is found (exit code 0) and
true when it is missing (exit code 2). -/
theorem c1_verify_inverted :
    verify "cmake" 0 false = .rejectedNaming "cmake" ∧
    verify "git" 0 true = .resolved false ∧
    verify "git" 2 true = .resolved true :=
  ⟨rfl, rfl, rfl⟩

/-- C8 counterexample: for a missing path with errors not ignored, remove
does not fail with the invalid-path condition; the rejection handler
terminates the process instead. -/
theorem c8_missing_path_exits_process :
    remove .missing false = .exitedProcess ∧
    RemoveOutcome.exitedProcess ≠ RemoveOutcome.threwInvalidPath :=
  ⟨rfl, by decide⟩

/-- C8 amended: remove deletes a regular file via unlink and a directory via
recursive removal regardless of the ignore flag; a path that exists but
references neither a file nor a directory fails with the invalid-path
condition when errors are not ignored and is left untouched otherwise; a
missing path is a no-op success when errors are ignored, while with errors
not ignored the handler logs the lstat rejection and terminates the process
with exit status 1 instead of raising the invalid-path condition. -/
theorem c8_remove_cases (ig : Bool) :
    remove .file ig = .resolved .missing ∧
    remove .dir ig = .resolved .missing ∧
    remove .missing true = .resolved .missing ∧
    remove .missing false = .exitedProcess ∧
    remove .other false = .threwInvalidPath ∧
    remove .other true = .resolved .other := by
  cases ig <;> exact ⟨rfl, rfl, rfl, rfl, rfl, rfl⟩

/-- The shift loop never finishes on the empty array: lines[0] is undefined,
which is falsy, and shift leaves the array empty. -/
theorem shiftBlank_nil (n : Nat) : shiftBlank n [] = none := by
  induction n with
  | zero => rfl
  | succ n ih => simpa [shiftBlank] using ih

/-- The shift loop never finishes on the array holding one empty string: the
first iteration empties the array and the loop then spins. -/
theorem shiftBlank_single_blank (n : Nat) : shiftBlank n [""] = none := by
  cases n with
  | zero => rfl
  | succ n => simp [shiftBlank, shiftBlank_nil]

/-- C4: the template renderer applied to the fully empty template does not
terminate. The claim states it terminates and yields the empty string; in
the source, the empty text splits to the one-element array holding the empty
string, the leading-blank loop empties that array and then spins forever, so
no amount of fuel produces a result and the return of the empty string on
the unreachable else branch never happens. -/
theorem c4_empty_template_diverges (eol : String) (fuel : Nat) :
    srcRender eol fuel "" = none := by
  have h : splitLines "" = [""] := by decide
  simp [srcRender, h, shiftBlank_single_blank]

/-- While some line is nonempty, the shift loop terminates within fuel at
least the length of the array and leaves exactly the suffix after the leading
blank lines. -/
theorem shiftBlank_eq_dropWhile (l : List String) :
    ∀ n : Nat, (∃ x ∈ l, x ≠ "") → l.length ≤ n →
      shiftBlank n l = some (l.dropWhile blank) := by
  induction l with
  | nil => intro n hex _; simp at hex
  | cons h t ih =>
    intro n hex hn
    match n with
    | 0 => simp at hn
    | n + 1 =>
      by_cases hh : h = ""
      · subst hh
        have hex' : ∃ x ∈ t, x ≠ "" := by
          obtain ⟨x, hx, hxne⟩ := hex
          rcases List.mem_cons.mp hx with h1 | h1
          · exact absurd h1 hxne
          · exact ⟨x, h1, hxne⟩
        have hn' : t.length ≤ n := by simpa using hn
        simp [shiftBlank, blank, List.dropWhile_cons, ih n hex' hn']
      · simp [shiftBlank, blank, List.dropWhile_cons, hh]

/-- Dropping the leading blank lines of a list with some nonempty line leaves
a nonempty list whose head is not blank. -/
theorem dropWhile_blank_head (l : List String) (hex : ∃ x ∈ l, x ≠ "") :
    l.dropWhile blank ≠ [] ∧ (l.dropWhile blank).headD "" ≠ "" := by
  induction l with
  | nil => simp at hex
  | cons h t ih =>
    by_cases hh : h = ""
    · subst hh
      have hex' : ∃ x ∈ t, x ≠ "" := by
        obtain ⟨x, hx, hxne⟩ := hex
        rcases List.mem_cons.mp hx with h1 | h1
        · exact absurd h1 hxne
        · exact ⟨x, h1, hxne⟩
      simpa [List.dropWhile_cons, blank] using ih hex'
    · simp [List.dropWhile_cons, blank, hh]

/-- A list whose last element is not blank has no trailing blank lines to
drop. -/
theorem dropTrailingBlank_eq_self (l : List String) (hne : l ≠ [])
    (hlast : l.getLast hne ≠ "") : dropTrailingBlank l = l := by
  unfold dropTrailingBlank
  conv_lhs => rw [← List.dropLast_append_getLast hne]
  rw [List.reverse_append, List.reverse_singleton, List.singleton_append,
    List.dropWhile_cons]
  simp [blank, hlast, List.dropLast_append_getLast hne]

/-- Dropping trailing blank lines after removing a blank last element is the
same as dropping them from the original list. -/
theorem dropTrailingBlank_pop (l : List String) (hne : l ≠ [])
    (hlast : l.getLast hne = "") :
    dropTrailingBlank l = dropTrailingBlank l.dropLast := by
  unfold dropTrailingBlank
  conv_lhs => rw [← List.dropLast_append_getLast hne]
  rw [List.reverse_append, List.reverse_singleton, List.singleton_append,
    List.dropWhile_cons]
  simp [blank, hlast]

/-- While the first line is nonempty, the pop loop terminates within fuel at
least the length of the array and removes exactly the trailing blank
lines. -/
theorem popBlank_eq_dropTrailing :
    ∀ (n : Nat) (l : List String), l ≠ [] → l.headD "" ≠ "" → l.length ≤ n →
      popBlank n l = some (dropTrailingBlank l) := by
  intro n
  induction n with
  | zero =>
    intro l hne _ hn
    cases l with
    | nil => exact absurd rfl hne
    | cons h t => simp at hn
  | succ n ih =>
    intro l hne hhead hn
    have hlast : l.getLast? = some (l.getLast hne) := List.getLast?_eq_getLast l hne
    by_cases he : l.getLast hne = ""
    · have hlen2 : 2 ≤ l.length := by
        cases l with
        | nil => exact absurd rfl hne
        | cons h t =>
          cases t with
          | nil => simp [List.getLast] at he; simp [he] at hhead
          | cons h2 t2 => simp
      have hdne : l.dropLast ≠ [] := by
        have hl := List.length_dropLast l
        intro hcontra
        rw [hcontra] at hl
        simp at hl
        omega
      have hdhead : l.dropLast.headD "" ≠ "" := by
        cases l with
        | nil => exact absurd rfl hne
        | cons h t =>
          cases t with
          | nil => simp at hlen2
          | cons h2 t2 => simpa [List.dropLast] using hhead
      have hdlen : l.dropLast.length ≤ n := by
        rw [List.length_dropLast]
        omega
      have hstep : popBlank (n + 1) l = popBlank n l.dropLast := by
        rw [popBlank, hlast]
        simp [he]
      rw [hstep, ih l.dropLast hdne hdhead hdlen, dropTrailingBlank_pop l hne he]
    · rw [popBlank, hlast]
      simp [he, dropTrailingBlank_eq_self l hne he]

/-- Dropping leading blank lines never lengthens the array. -/
theorem length_dropWhile_blank_le (l : List String) :
    (l.dropWhile blank).length ≤ l.length := by
  induction l with
  | nil => simp
  | cons h t ih =>
    rw [List.dropWhile_cons]
    by_cases hh : blank h = true
    · simp only [hh, if_true, List.length_cons]
      omega
    · simp [hh]

/-- C6 counterexample: at the concrete template consisting of the lines
two-spaces-ab, one-space-xy and two trailing blank lines, the source renderer
pops both trailing blank lines (not a single one) and removes two leading
characters from every line (eating the x of the second line rather than only
its single leading space), so its output differs from the output the claimed
description computes. -/
theorem c6_renderer_differs_from_claim :
    srcRender "\n" 8 "  ab\n xy\n\n" = some "ab\ny" ∧
    specC6Render "\n" "  ab\n xy\n\n" = "ab\nxy\n" ∧
    ("ab\ny" : String) ≠ "ab\nxy\n" :=
  ⟨by decide, by decide, by decide⟩

/-- C6 amended: for every template some line of which is nonempty, and fuel
exceeding the number of lines, the renderer strips all leading blank lines
and all trailing blank lines, computes the number of leading spaces of the
first retained line, removes exactly that many leading characters from every
retained line, and joins the lines with the host line-ending sequence. -/
theorem c6_amended_renderer (eol : String) (t : String) (fuel : Nat)
    (h1 : ∃ l ∈ splitLines t, l ≠ "")
    (h2 : (splitLines t).length + 1 ≤ fuel) :
    srcRender eol fuel t = some (amendedRender eol t) := by
  have hne : splitLines t ≠ [] := by
    obtain ⟨x, hx, _⟩ := h1
    exact List.ne_nil_of_mem hx
  have hlen0 : (splitLines t).length ≠ 0 := by
    simpa [List.length_eq_zero] using hne
  have hs : shiftBlank fuel (splitLines t) = some ((splitLines t).dropWhile blank) :=
    shiftBlank_eq_dropWhile _ fuel h1 (by omega)
  have hd := dropWhile_blank_head (splitLines t) h1
  have hp : popBlank fuel ((splitLines t).dropWhile blank) =
      some (dropTrailingBlank ((splitLines t).dropWhile blank)) :=
    popBlank_eq_dropTrailing fuel _ hd.1 hd.2
      (le_trans (length_dropWhile_blank_le _) (by omega))
  simp [srcRender, hlen0, hs, hp, amendedRender]

/-- A witness for the amended renderer contract at a concrete template with a
nonempty line. -/
theorem c6_amended_renderer_checked :
    (∃ l ∈ splitLines "  a\nb", l ≠ "") ∧
    (splitLines "  a\nb").length + 1 ≤ 5 ∧
    srcRender "\n" 5 "  a\nb" = some (amendedRender "\n" "  a\nb") :=
  ⟨by decide, by decide, c6_amended_renderer "\n" "  a\nb" 5 (by decide) (by decide)⟩

/-- C2: evaluating the init command at the failing input, a non-Windows run
whose headers download fails leaving a partially extracted headers
directory. The rollback does remove the headers directory, but the process
does not terminate with exit status 1: the catch handler of the init command
is created with its ignore flag set, which suppresses both the error log and
the exit, contradicting the second half of the claim. -/
theorem c2_download_failure_rolls_back_but_no_exit :
    (initCmd ⟨false, false, true, true, true, .dir, .missing⟩
      ⟨.missing, .missing, .missing, .missing, .dir, .file, .file, .missing, .file,
        .missing, .missing⟩).fs.headerDir = .missing ∧
    (initCmd ⟨false, false, true, true, true, .dir, .missing⟩
      ⟨.missing, .missing, .missing, .missing, .dir, .file, .file, .missing, .file,
        .missing, .missing⟩).exited1 = false :=
  ⟨rfl, rfl⟩

/-- C3: evaluating the rollback handler of the create command when the
just-created project directory exists: the handler exits with status 1 but
leaves the project directory in place, because the lstat call inside its try
block evaluates the unbound identifier path, the resulting ReferenceError is
swallowed by the empty catch, and the rmdir call is never reached. -/
theorem c3_create_rollback_leaves_directory :
    (exitHandler .dir).projectDir = .dir ∧ (exitHandler .dir).exitCode = 1 :=
  ⟨rfl, rfl⟩

/-- C5: evaluating the final step of create when git is unavailable (the
locator exits nonzero) or repository initialization failed (git init exit
code 1): the ignore file is written anyway and the version-control metadata
directory is not removed, because the condition tests the un-awaited Promise
object returned by initGit, which is always truthy. -/
theorem c5_gitignore_written_despite_git_failure :
    (gitStep false 1 .dir).gitignoreWritten = true ∧
    (gitStep false 1 .dir).gitDir = .dir ∧
    (gitStep false 1 .missing).gitignoreWritten = true :=
  ⟨rfl, rfl, rfl⟩

/-- C7: whenever a build precondition is unsatisfied (the locator reports a
nonzero exit code for the generator or the build tool, the header include
directory is absent, or on Windows the import library file is absent), the
build command rejects before any build side effect: the build output
directory is not created and neither the generator nor the build tool is
spawned. -/
theorem c7_preconditions_block_side_effects (env : BuildEnv)
    (h : env.whichCmakeExit ≠ 0 ∨ env.whichNinjaExit ≠ 0 ∨
      env.includeDirPresent = false ∨
      (env.isWindows = true ∧ env.libFilePresent = false)) :
    build env = ⟨false, false, false, true⟩ := by
  simp [build, verify]

/-- A witness for the build precondition theorem: headers absent on a
non-Windows host. -/
theorem c7_preconditions_block_side_effects_checked :
    ((⟨false, 0, 0, false, true, 0, 0⟩ : BuildEnv).whichCmakeExit ≠ 0 ∨
      (⟨false, 0, 0, false, true, 0, 0⟩ : BuildEnv).whichNinjaExit ≠ 0 ∨
      (⟨false, 0, 0, false, true, 0, 0⟩ : BuildEnv).includeDirPresent = false ∨
      ((⟨false, 0, 0, false, true, 0, 0⟩ : BuildEnv).isWindows = true ∧
        (⟨false, 0, 0, false, true, 0, 0⟩ : BuildEnv).libFilePresent = false)) ∧
    build ⟨false, 0, 0, false, true, 0, 0⟩ = ⟨false, false, false, true⟩ :=
  ⟨Or.inr (Or.inr (Or.inl rfl)),
    c7_preconditions_block_side_effects ⟨false, 0, 0, false, true, 0, 0⟩
      (Or.inr (Or.inr (Or.inl rfl)))⟩

/-- C9: the clean command always succeeds, leaves the library directory and
its import-library file, the generated scaffold files and the
version-control state unchanged, removes the build output directory
best-effort, and touches the downloaded header directory exactly when the
all modifier is given; missing directories resolve without error. -/
theorem c9_clean_frame (all : Bool) (fs : Fs) :
    ∃ fs2, clean all fs = some fs2 ∧
      fs2.libDir = fs.libDir ∧ fs2.libFile = fs.libFile ∧
      fs2.srcDir = fs.srcDir ∧ fs2.srcFile = fs.srcFile ∧
      fs2.cmakeListsFile = fs.cmakeListsFile ∧
      fs2.napiCmakeFile = fs.napiCmakeFile ∧
      fs2.packageJsonFile = fs.packageJsonFile ∧
      fs2.gitignoreFile = fs.gitignoreFile ∧
      fs2.gitDir = fs.gitDir ∧
      fs2.buildDir = removeNewState fs.buildDir true ∧
      fs2.headerDir = (if all then removeNewState fs.headerDir true else fs.headerDir) := by
  cases all with
  | false =>
    refine ⟨{ fs with buildDir := removeNewState fs.buildDir true }, ?_,
      rfl, rfl, rfl, rfl, rfl, rfl, rfl, rfl, rfl, rfl, rfl⟩
    simp [clean, remove_ignore_resolves]
  | true =>
    refine ⟨{ fs with buildDir := removeNewState fs.buildDir true, headerDir := removeNewState fs.headerDir true }, ?_, rfl, rfl, rfl, rfl, rfl, rfl, rfl, rfl, rfl, rfl, rfl⟩
    simp [clean, remove_ignore_resolves]

/-- C10: every runtime CPU architecture other than x64 is mapped to the
win-x86 token, which the import-library download path embeds, and only x64
maps to win-x64. -/
theorem c10_arch_token (arch : String) (h : arch ≠ "x64") :
    NODE_ARCH arch = "win-x86" ∧
    libDownloadPath arch = "win-x86/node.lib" ∧
    NODE_ARCH "x64" = "win-x64" := by
  refine ⟨by simp [NODE_ARCH, h], ?_, by simp [NODE_ARCH]⟩
  simp [libDownloadPath, NODE_ARCH, h]

/-- A witness for the architecture token theorem at the arm64
architecture. -/
theorem c10_arch_token_checked :
    ("arm64" : String) ≠ "x64" ∧
    (NODE_ARCH "arm64" = "win-x86" ∧
      libDownloadPath "arm64" = "win-x86/node.lib" ∧
      NODE_ARCH "x64" = "win-x64") :=
  ⟨by decide, c10_arch_token "arm64" (by decide)⟩
